import Mathlib

set_option linter.unusedVariables false

/-!
Shallow embedding of `src/server/services/profile_scraper.py` (multi-platform
profile scraper).  The browser automation collaborator is modelled by an
explicit environment `Env`: loaded pages become `PageData` records, fallible
operations (browser launch, navigations, the two `browser.close()` call
sites) become boolean outcomes recorded in the environment, and each scrape
produces a `ScrapeResult` carrying the collected profiles, a trace of the
session-level events, and whether an exception escaped to the caller.
-/

/-- One DOM element handle: its `href` attribute (`none` models a null
attribute) and its inner text. -/
structure Elem where
  href : Option String
  text : String
deriving DecidableEq, Repr

/-- A loaded page.  `sel` models `page.query_selector` (element or nothing),
`selAll` models `page.query_selector_all` where `none` models the call
raising (callers that wrap it in `try/except` treat that as no contribution,
callers that do not are driven to the session-level fatal handler), and
`content` models `page.content()`. -/
structure PageData where
  sel : String → Option Elem
  selAll : String → Option (List Elem)
  content : String

/-- Environment for one scrape invocation: outcome of the browser launch, of
each navigation (by URL), of the first and of the second `browser.close()`
invocation, plus the page contents served for the search page and for each
profile URL. -/
structure Env where
  launchOk : Bool
  gotoOk : String → Bool
  closeNormalOk : Bool
  closeHandlerOk : Bool
  searchPage : PageData
  profilePage : String → PageData

/-- The profile record dictionary built by every `extract_*_profile`
function; `source` is attached later by the per-platform loop. -/
structure Profile where
  fullName : String
  email : String
  bio : String
  location : String
  profileUrl : String
  skills : List String
  company : String
  website : String
  followers : Nat
  repos : Nat
  source : String
deriving DecidableEq, Repr

/-- Session-level events of one scrape: a successful browser launch, each
`page.goto` invocation, the normal-path `browser.close()` (line 136 style),
the `browser.close()` inside the fatal `except` handler, and the diagnostic
printed for an unknown platform. -/
inductive Event where
  | launch
  | goto (url : String)
  | closeNormal
  | closeHandler
  | logUnknown (platform : String)
deriving DecidableEq, Repr

/-- Result of one scrape call: the profile list the Python function would
return, the event trace, and whether an exception escaped to the caller. -/
structure ScrapeResult where
  profiles : List Profile
  trace : List Event
  raised : Bool
deriving DecidableEq, Repr

/-- Python `str.lower()` (ASCII case folding, all the strings compared here
are ASCII). -/
def pyLower (s : String) : String := String.mk (s.data.map Char.toLower)

/-- Python `str.strip()` (ASCII whitespace). -/
def pyStrip (s : String) : String :=
  String.mk (((s.data.dropWhile Char.isWhitespace).reverse.dropWhile Char.isWhitespace).reverse)

/-- Python slicing `s[:n]` (by characters). -/
def pyTake (s : String) (n : Nat) : String := String.mk (s.data.take n)

/-- Python slicing `s[n:]` (by characters). -/
def pyDrop (s : String) (n : Nat) : String := String.mk (s.data.drop n)

/-- Python `s.startswith(p)`. -/
def pyStartsWith (s p : String) : Bool := p.data.isPrefixOf s.data

/-- Python `s.split(c)[0]`: the characters before the first occurrence of
`c` (the whole string when `c` does not occur). -/
def pyTakeUntil (c : Char) (s : String) : String := String.mk (s.data.takeWhile (fun x => x ≠ c))

/-- Number of occurrences of a character in a string (Python `str.count`). -/
def countChar (s : String) (c : Char) : Nat := s.toList.count c

/-- Substring test on character lists (Python `needle in hay`). -/
def listContainsSub (needle : List Char) : List Char → Bool
  | [] => needle.isEmpty
  | c :: cs => needle.isPrefixOf (c :: cs) || listContainsSub needle cs

/-- Character class `[a-zA-Z0-9_-]` of the two href regexes. -/
def isWordChar (c : Char) : Bool := c.isAlpha || c.isDigit || c == '_' || c == '-'

/-- Try to match, at the start of `cs`, the pattern
`lit ++ cap ++ ⟨one or more word chars⟩ ++ quote`; on success return the
captured group (`cap` plus the word-char run) and the remaining input. -/
def matchCapAt (lit cap : List Char) (cs : List Char) : Option (String × List Char) :=
  if (lit ++ cap).isPrefixOf cs then
    let rest := cs.drop (lit.length + cap.length)
    let run := rest.takeWhile isWordChar
    let rest2 := rest.drop run.length
    if run.isEmpty then none
    else
      match rest2 with
      | '"' :: r => some (String.mk (cap ++ run), r)
      | _ => none
  else none

/-- Fuelled left-to-right non-overlapping scan, as `re.findall` performs for
the patterns used here (the word-char class and the closing quote are
disjoint, so the regexes never backtrack). -/
def scanHrefAux (lit cap : List Char) : Nat → List Char → List String
  | 0, _ => []
  | _ + 1, [] => []
  | fuel + 1, c :: cs =>
    match matchCapAt lit cap (c :: cs) with
    | some (s, rest) => s :: scanHrefAux lit cap fuel rest
    | none => scanHrefAux lit cap fuel cs

/-- `re.findall` for the patterns `href="(cap[a-zA-Z0-9_-]+)"` used by the
GitHub (`cap = "/"`) and Behance (`cap = "https://www.behance.net/"`)
fallback scans. -/
def reFindallHref (lit cap content : String) : List String :=
  scanHrefAux lit.toList cap.toList content.length content.toList

/-- After an occurrence of `/users/`: require one or more digits followed by
`/` (pattern `.*/users/\d+/.*`) or by the end of the string
(pattern `.*/users/\d+$`). -/
def soCheckAfter (cs : List Char) : Bool :=
  let ds := cs.takeWhile Char.isDigit
  let rest := cs.drop ds.length
  (!ds.isEmpty) && (rest.isEmpty || rest.headD ' ' == '/')

/-- Scan for an occurrence of `/users/` acceptable to `soCheckAfter`; the
`.*` preceding the occurrence cannot cross a newline. -/
def soScan : List Char → Bool
  | [] => false
  | c :: cs =>
    if c == '\n' then false
    else
      ("/users/".toList.isPrefixOf (c :: cs) && soCheckAfter ((c :: cs).drop 7)) || soScan cs

/-- `re.match(r'.*/users/\d+/.*', url) or re.match(r'.*/users/\d+$', url)`. -/
def soUrlMatch (s : String) : Bool := soScan s.toList

/-- The guarded append shared by every discovery loop:
`if full_url not in profile_urls and full_url not in existing_urls:
profile_urls.append(full_url)`. -/
def addCandidate (ex : List String) (acc : List String) (url : String) : List String :=
  if url ∉ acc ∧ url ∉ ex then acc ++ [url] else acc

/-- One per-field fallback chain of the extractors: try selectors in order;
the first element whose trimmed inner text passes `accept` wins and
short-circuits the rest (a missing element or a raised lookup means the next
selector is tried). -/
def fieldChain (pd : PageData) (sels : List String) (accept : String → Prop)
    [DecidablePred accept] : Option String :=
  sels.foldl (fun acc sel =>
    match acc with
    | some v => some v
    | none =>
      match pd.sel sel with
      | none => none
      | some el =>
        let t := pyStrip el.text
        if accept t then some t else none) none

/-- One step of the deduplicating skill harvest.  The Python `seen` set
always contains exactly the strings already appended, so it is modelled by
membership in the accumulator. -/
def dedupStep (acc : List String) (el : Elem) : List String :=
  let skill := pyStrip el.text
  if skill ≠ "" ∧ skill ∉ acc then acc ++ [skill] else acc

/-- Skill harvesting with a `seen` set (GitHub and Stack Overflow): trimmed
nonempty texts, first occurrence kept, duplicates suppressed. -/
def dedupCollect (els : List Elem) : List String := els.foldl dedupStep []

/-- One step of the Behance skill harvest: trimmed text kept when nonempty
and shorter than 50 characters; no duplicate suppression. -/
def behSkillStep (acc : List String) (el : Elem) : List String :=
  let skill := pyStrip el.text
  if skill ≠ "" ∧ skill.length < 50 then acc ++ [skill] else acc

/-- Behance skill harvesting: first 10 elements only. -/
def behanceSkillsCollect (els : List Elem) : List String :=
  (els.take 10).foldl behSkillStep []

/-- Selector of the GitHub pinned-repository language badges. -/
def ghSkillsSel : String := "[itemprop=\"programmingLanguage\"], .repo-language-color + span"

/-- Elements matched by the GitHub skills selector (a raised lookup
contributes nothing, as the surrounding `try/except: pass` does). -/
def ghSkillEls (pd : PageData) : List Elem := (pd.selAll ghSkillsSel).getD []

/-- `extract_github_profile`. -/
def extract_github_profile (pd : PageData) (profile_url : String) : Profile :=
  let name0 := fieldChain pd ["span.p-name", "[itemprop=\"name\"]", "h1.vcard-names span"]
      (fun t => t ≠ "" ∧ 1 < t.length)
  let fullName :=
    match name0 with
    | some t => t
    | none =>
      match pd.sel "span.p-nickname, .vcard-username" with
      | some el => pyStrip el.text
      | none => ""
  let bio :=
    match fieldChain pd ["div.p-note", ".user-profile-bio", "[data-bio-text]"]
        (fun t => t ≠ "") with
    | some t => pyTake t 500
    | none => ""
  let location :=
    (fieldChain pd ["[itemprop=\"homeLocation\"]", ".p-label", "li[itemprop=\"homeLocation\"] span"]
        (fun t => t ≠ "")).getD ""
  let company :=
    match pd.sel "[itemprop=\"worksFor\"] span, .p-org" with
    | some el => pyStrip el.text
    | none => ""
  { fullName := fullName, email := "", bio := bio, location := location,
    profileUrl := profile_url, skills := dedupCollect (ghSkillEls pd), company := company,
    website := "", followers := 0, repos := 0, source := "" }

/-- Selector of the Behance field/skill chips. -/
def behSkillsSel : String := "[class*=\"field\"], [class*=\"skill\"]"

/-- Elements matched by the Behance skills selector. -/
def behSkillEls (pd : PageData) : List Elem := (pd.selAll behSkillsSel).getD []

/-- `extract_behance_profile`. -/
def extract_behance_profile (pd : PageData) (profile_url : String) : Profile :=
  let fullName :=
    (fieldChain pd ["h1", ".e2e-Profile-userName", "[class*=\"userName\"]", ".UserInfo-userName"]
        (fun t => t ≠ "" ∧ 1 < t.length ∧ t.length < 100)).getD ""
  let bio :=
    (fieldChain pd ["[class*=\"bio\"]", "[class*=\"headline\"]", ".UserInfo-bio"]
        (fun t => t ≠ "" ∧ 10 < t.length ∧ t.length < 500)).getD ""
  let location :=
    (fieldChain pd ["[class*=\"location\"]", "[class*=\"Location\"]", ".UserInfo-location"]
        (fun t => True)).getD ""
  { fullName := fullName, email := "", bio := bio, location := location,
    profileUrl := profile_url, skills := behanceSkillsCollect (behSkillEls pd), company := "",
    website := "", followers := 0, repos := 0, source := "" }

/-- Selector of the Stack Overflow tag chips. -/
def soSkillsSel : String := ".s-tag, .post-tag, .tag"

/-- Elements matched by the Stack Overflow tags selector. -/
def soSkillEls (pd : PageData) : List Elem := (pd.selAll soSkillsSel).getD []

/-- `extract_stackoverflow_profile`. -/
def extract_stackoverflow_profile (pd : PageData) (profile_url : String) : Profile :=
  let fullName :=
    (fieldChain pd ["h1", ".fs-headline2", "[itemprop=\"name\"]", ".user-card-name"]
        (fun t => t ≠ "" ∧ t.length < 100)).getD ""
  let bio :=
    match pd.sel ".js-about-me-content, .user-about-me" with
    | some el => pyTake (pyStrip el.text) 500
    | none => ""
  let location :=
    match pd.sel "[itemprop=\"homeLocation\"], .user-card-location" with
    | some el => pyStrip el.text
    | none => ""
  { fullName := fullName, email := "", bio := bio, location := location,
    profileUrl := profile_url, skills := dedupCollect ((soSkillEls pd).take 15), company := "",
    website := "", followers := 0, repos := 0, source := "" }

/-- `extract_devto_profile`; note that it collects no skills at all. -/
def extract_devto_profile (pd : PageData) (profile_url : String) : Profile :=
  let fullName :=
    (fieldChain pd ["h1", ".profile-header__name", ".crayons-title", ".profile-details h1"]
        (fun t => t ≠ "" ∧ 1 < t.length ∧ t.length < 100)).getD ""
  let bio :=
    match fieldChain pd [".profile-header__bio", ".profile-header__summary", ".profile-details p"]
        (fun t => t ≠ "" ∧ 5 < t.length) with
    | some t => pyTake t 500
    | none => ""
  let location :=
    match pd.sel "[class*=\"location\"]" with
    | some el => pyStrip el.text
    | none => ""
  { fullName := fullName, email := "", bio := bio, location := location,
    profileUrl := profile_url, skills := [], company := "",
    website := "", followers := 0, repos := 0, source := "" }

/-- GitHub search URL (f-string of line 72). -/
def githubSearchUrl (query location : String) : String :=
  "https://github.com/search?q=type%3Auser+location%3A" ++ location ++ "+" ++ query ++ "&type=users"

/-- Behance search URL (f-string of line 245). -/
def behanceSearchUrl (query location : String) : String :=
  "https://www.behance.net/search/users?search=" ++ query ++ "%20" ++ location

/-- Stack Overflow listing URL: the f-string of line 384 interpolates
nothing, so it is one fixed string. -/
def soSearchUrl : String := "https://stackoverflow.com/users?tab=reputation&filter=all"

/-- Dev.to discovery navigates to the fixed homepage (line 504). -/
def devtoStartUrl : String := "https://dev.to/"

/-- Ordered selector strategies of the GitHub discovery. -/
def githubSelectors : List String :=
  ["a[data-hovercard-type=\"user\"]", "div[data-testid=\"results-list\"] a",
   ".user-list-item a", "a.Link--primary"]

/-- GitHub denylist of non-profile path segments. -/
def githubSkipPaths : List String :=
  ["search", "explore", "marketplace", "features", "pricing",
   "login", "signup", "join", "settings", "notifications", "about"]

/-- Processing of one anchor in the GitHub selector phase. -/
def ghLinkStep (ex : List String) (acc : List String) (link : Elem) : List String :=
  match link.href with
  | some h =>
    if h ≠ "" ∧ pyStartsWith h "/" = true ∧ countChar h '/' = 1 then
      addCandidate ex acc ("https://github.com" ++ h)
    else acc
  | none => acc

/-- Processing of one selector strategy in the GitHub selector phase; a
raised `query_selector_all` is caught by `except: continue`. -/
def ghSelStep (pd : PageData) (ex : List String) (acc : List String) (sel : String) : List String :=
  match pd.selAll sel with
  | some links => links.foldl (ghLinkStep ex) acc
  | none => acc

/-- The GitHub selector phase: the four strategies in order, accumulating
deduplicated candidates. -/
def githubSelPhase (pd : PageData) (ex : List String) : List String :=
  githubSelectors.foldl (ghSelStep pd ex) []

/-- Processing of one regex match in the GitHub fallback phase. -/
def ghMatchStep (ex : List String) (acc : List String) (m : String) : List String :=
  if countChar m '/' = 1 then
    let path := pyDrop m 1
    if path ≠ "" ∧ 1 < path.length ∧ pyLower path ∉ githubSkipPaths then
      addCandidate ex acc ("https://github.com" ++ m)
    else acc
  else acc

/-- GitHub URL discovery: selector phase, then, only when fewer than 3
candidates were accumulated, the regex scan of the raw markup filtered by
the denylist and the path-shape checks. -/
def githubDiscoverUrls (pd : PageData) (ex : List String) : List String :=
  let urls := githubSelPhase pd ex
  if urls.length < 3 then
    (reFindallHref "href=\"" "/" pd.content).foldl (ghMatchStep ex) urls
  else urls

/-- Behance URL prefix stripped from each regex match. -/
def behancePre : String := "https://www.behance.net/"

/-- Behance denylist of non-profile path segments. -/
def behanceSkipPaths : List String :=
  ["search", "galleries", "joblist", "adobe", "features",
   "assets", "onboarding", "hire", "login", "signup", "privacy",
   "tos", "help", "feedback", "misc", "about", "careers", "gallery"]

/-- Processing of one regex match in the Behance discovery.  The Python
`match.replace(behancePre, '')` removes the prefix: every match starts with
it and its tail is word characters, so no second occurrence can exist. -/
def behMatchStep (ex : List String) (acc : List String) (m : String) : List String :=
  let path := pyTakeUntil '?' (pyTakeUntil '/' (pyDrop m behancePre.length))
  if path ≠ "" ∧ 2 < path.length ∧ pyLower path ∉ behanceSkipPaths ∧
      ¬ (pyStartsWith path "gallery" = true) then
    addCandidate ex acc m
  else acc

/-- Behance URL discovery: a single unconditional regex scan of the raw
markup (no selector strategies at all). -/
def behanceDiscoverUrls (content : String) (ex : List String) : List String :=
  (reFindallHref "href=\"" behancePre content).foldl (behMatchStep ex) []

/-- Processing of one anchor in the Stack Overflow discovery. -/
def soLinkStep (ex : List String) (acc : List String) (link : Elem) : List String :=
  match link.href with
  | some h =>
    if h ≠ "" ∧ listContainsSub "/users/".toList h.toList = true then
      let full := if pyStartsWith h "http" then h else "https://stackoverflow.com" ++ h
      if soUrlMatch full then addCandidate ex acc full else acc
    else acc
  | none => acc

/-- Selector of the Stack Overflow user anchors. -/
def soUsersSel : String := "a[href*=\"/users/\"]"

/-- Stack Overflow URL discovery: one selector strategy, no markup scan.
The `query_selector_all` call is not wrapped in a local `try`, so `none`
(a raised call) drives the session into the fatal handler. -/
def soDiscoverUrls? (pd : PageData) (ex : List String) : Option (List String) :=
  (pd.selAll soUsersSel).map (fun links => links.foldl (soLinkStep ex) [])

/-- Dev.to denylist of non-profile path segments. -/
def devtoSkipPaths : List String :=
  ["search", "top", "latest", "settings", "enter", "signout",
   "signin", "notifications", "reading", "new", "tags", "about",
   "t", "html", "css", "javascript", "python", "webdev", "react"]

/-- Processing of one author anchor in the Dev.to discovery. -/
def devtoLinkStep (ex : List String) (acc : List String) (link : Elem) : List String :=
  match link.href with
  | some h =>
    if h ≠ "" ∧ pyStartsWith h "/" = true ∧ countChar h '/' = 1 then
      let path := pyDrop h 1
      if path ≠ "" ∧ 2 < path.length ∧ pyLower path ∉ devtoSkipPaths then
        addCandidate ex acc ("https://dev.to" ++ h)
      else acc
    else acc
  | none => acc

/-- Selector of the Dev.to author anchors. -/
def devtoAuthorSel : String := "a[href^=\"/\"][class*=\"author\"], .crayons-story__secondary a"

/-- Dev.to URL discovery: one selector strategy, no markup scan; as for
Stack Overflow, a raised `query_selector_all` is fatal. -/
def devtoDiscoverUrls? (pd : PageData) (ex : List String) : Option (List String) :=
  (pd.selAll devtoAuthorSel).map (fun links => links.foldl (devtoLinkStep ex) [])

/-- One attempt of the per-profile loop body shared by all four platforms:
navigate, optionally run a pre-check (Dev.to only), extract, keep the record
only when `fullName` is nonempty, and tag it with the source platform.
`none` covers a failed navigation, a failed pre-check, and a discarded
empty-name record alike. -/
def mkAttempt (env : Env) (check : PageData → Bool) (ext : PageData → String → Profile)
    (tag : String) (url : String) : Option Profile :=
  if env.gotoOk url then
    let pd := env.profilePage url
    if check pd then
      let pr := ext pd url
      if pr.fullName ≠ "" then some { pr with source := tag } else none
    else none
  else none

/-- GitHub loop body. -/
def ghAttempt (env : Env) : String → Option Profile :=
  mkAttempt env (fun _ => true) extract_github_profile "GitHub"

/-- Behance loop body. -/
def behAttempt (env : Env) : String → Option Profile :=
  mkAttempt env (fun _ => true) extract_behance_profile "Behance"

/-- Stack Overflow loop body. -/
def soAttempt (env : Env) : String → Option Profile :=
  mkAttempt env (fun _ => true) extract_stackoverflow_profile "Stack Overflow"

/-- Selector of the Dev.to profile-page check. -/
def devtoCheckSel : String := ".profile-header, .crayons-card--profile, .profile-details"

/-- Dev.to loop body, including the profile-page pre-check. -/
def devtoAttempt (env : Env) : String → Option Profile :=
  mkAttempt env (fun pd => (pd.sel devtoCheckSel).isSome) extract_devto_profile "Dev.to"

/-- One iteration of the GitHub / Stack Overflow profile loop. -/
def profileStep (att : String → Option Profile) (acc : List Profile × List Event)
    (url : String) : List Profile × List Event :=
  match att url with
  | some pr => (acc.1 ++ [pr], acc.2 ++ [Event.goto url])
  | none => (acc.1, acc.2 ++ [Event.goto url])

/-- The GitHub / Stack Overflow profile loop: iterate over exactly the given
URLs (the caller passes `profile_urls[:max_profiles]`), each iteration
navigating once; per-item failures are caught and the loop continues. -/
def profileLoop (att : String → Option Profile) (urls : List String) :
    List Profile × List Event :=
  urls.foldl (profileStep att) ([], [])

/-- The Behance / Dev.to profile loop: iterate over all candidates, breaking
as soon as `scraped` successfully collected records reach the cap; failed or
discarded candidates do not increment `scraped`. -/
def countedLoop (att : String → Option Profile) (maxP : Nat) :
    List String → Nat → List Profile × List Event → List Profile × List Event
  | [], _, acc => acc
  | url :: rest, scraped, acc =>
    if maxP ≤ scraped then acc
    else
      match att url with
      | some pr => countedLoop att maxP rest (scraped + 1) (acc.1 ++ [pr], acc.2 ++ [Event.goto url])
      | none => countedLoop att maxP rest scraped (acc.1, acc.2 ++ [Event.goto url])

/-- The `browser.close()` inside the fatal `except` handler: the close is
invoked; if it itself fails, its exception escapes to the caller. -/
def fatalClose (env : Env) (ps : List Profile) (tr : List Event) : ScrapeResult :=
  { profiles := ps, trace := tr ++ [Event.closeHandler], raised := !env.closeHandlerOk }

/-- The normal-path `browser.close()` after the loop; if it fails, control
moves to the fatal handler, which closes again. -/
def finishClose (env : Env) (ps : List Profile) (tr : List Event) : ScrapeResult :=
  if env.closeNormalOk then
    { profiles := ps, trace := tr ++ [Event.closeNormal], raised := false }
  else fatalClose env ps (tr ++ [Event.closeNormal])

/-- `scrape_github_profiles`.  A failed launch leaves `browser = None`, the
handler skips the close and the empty list is returned; a failed search
navigation goes to the fatal handler. -/
def scrape_github_profiles (env : Env) (query location : String) (max_profiles : Nat)
    (existing_urls : List String) : ScrapeResult :=
  if env.launchOk then
    let su := githubSearchUrl query location
    if env.gotoOk su then
      let urls := githubDiscoverUrls env.searchPage existing_urls
      let r := profileLoop (ghAttempt env) (urls.take max_profiles)
      finishClose env r.1 (Event.launch :: Event.goto su :: r.2)
    else fatalClose env [] [Event.launch, Event.goto su]
  else { profiles := [], trace := [], raised := false }

/-- `scrape_behance_profiles`. -/
def scrape_behance_profiles (env : Env) (query location : String) (max_profiles : Nat)
    (existing_urls : List String) : ScrapeResult :=
  if env.launchOk then
    let su := behanceSearchUrl query location
    if env.gotoOk su then
      let urls := behanceDiscoverUrls env.searchPage.content existing_urls
      let r := countedLoop (behAttempt env) max_profiles urls 0 ([], [])
      finishClose env r.1 (Event.launch :: Event.goto su :: r.2)
    else fatalClose env [] [Event.launch, Event.goto su]
  else { profiles := [], trace := [], raised := false }

/-- `scrape_stackoverflow_profiles`; `query` and `location` are parameters
of the Python function but are never used in its body. -/
def scrape_stackoverflow_profiles (env : Env) (query location : String) (max_profiles : Nat)
    (existing_urls : List String) : ScrapeResult :=
  if env.launchOk then
    if env.gotoOk soSearchUrl then
      match soDiscoverUrls? env.searchPage existing_urls with
      | some urls =>
        let r := profileLoop (soAttempt env) (urls.take max_profiles)
        finishClose env r.1 (Event.launch :: Event.goto soSearchUrl :: r.2)
      | none => fatalClose env [] [Event.launch, Event.goto soSearchUrl]
    else fatalClose env [] [Event.launch, Event.goto soSearchUrl]
  else { profiles := [], trace := [], raised := false }

/-- `scrape_devto_profiles`; `query` is a parameter of the Python function
but is never used in its body. -/
def scrape_devto_profiles (env : Env) (query : String) (max_profiles : Nat)
    (existing_urls : List String) : ScrapeResult :=
  if env.launchOk then
    if env.gotoOk devtoStartUrl then
      match devtoDiscoverUrls? env.searchPage existing_urls with
      | some urls =>
        let r := countedLoop (devtoAttempt env) max_profiles urls 0 ([], [])
        finishClose env r.1 (Event.launch :: Event.goto devtoStartUrl :: r.2)
      | none => fatalClose env [] [Event.launch, Event.goto devtoStartUrl]
    else fatalClose env [] [Event.launch, Event.goto devtoStartUrl]
  else { profiles := [], trace := [], raised := false }

/-- `scrape_profiles`: the top-level dispatch on the lower-cased platform
string. -/
def scrape_profiles (env : Env) (platform query location : String) (max_profiles : Nat)
    (existing_urls : List String) : ScrapeResult :=
  let p := pyLower platform
  if p = "github" then scrape_github_profiles env query location max_profiles existing_urls
  else if p = "behance" then scrape_behance_profiles env query location max_profiles existing_urls
  else if p = "stackoverflow" then scrape_stackoverflow_profiles env query location max_profiles existing_urls
  else if p = "devto" then scrape_devto_profiles env query max_profiles existing_urls
  else { profiles := [], trace := [Event.logUnknown p], raised := false }

/-- Page with no elements and empty markup. -/
def pdEmpty : PageData := { sel := fun _ => none, selAll := fun _ => some [], content := "" }

/-- GitHub search fixture: the primary selector strategy yields three user
anchors. -/
def pdGhSearch : PageData :=
  { sel := fun _ => none,
    selAll := fun s =>
      if s = "a[data-hovercard-type=\"user\"]" then
        some [{ href := some "/alice", text := "Alice" },
              { href := some "/bob", text := "Bob" },
              { href := some "/carol", text := "Carol" }]
      else some [],
    content := "" }

/-- GitHub profile fixture: the first name selector matches. -/
def pdGhProfile : PageData :=
  { sel := fun s => if s = "span.p-name" then some { href := none, text := "Alice Smith" } else none,
    selAll := fun _ => some [],
    content := "" }

/-- Environment in which every operation succeeds. -/
def envAllOk : Env :=
  { launchOk := true, gotoOk := fun _ => true, closeNormalOk := true, closeHandlerOk := true,
    searchPage := pdGhSearch, profilePage := fun _ => pdGhProfile }

/-- Environment in which every navigation fails. -/
def envNavFail : Env := { envAllOk with gotoOk := fun _ => false }

/-- Environment in which navigations fail and the close inside the fatal
handler fails as well. -/
def envCloseFail : Env :=
  { envAllOk with gotoOk := fun _ => false, closeHandlerOk := false }

/-- Environment in which only the navigation to the alice profile fails. -/
def envAliceFail : Env :=
  { envAllOk with gotoOk := fun u => u != "https://github.com/alice" }

/-- Behance profile fixture with a duplicated skill chip. -/
def pdBehanceDup : PageData :=
  { sel := fun s => if s = "h1" then some { href := none, text := "Ann Lee" } else none,
    selAll := fun s =>
      if s = behSkillsSel then
        some [{ href := none, text := "UI" }, { href := none, text := "UI" }]
      else some [],
    content := "" }

/-- GitHub profile fixture with 16 distinct language badges. -/
def pdManySkills : PageData :=
  { sel := fun _ => none,
    selAll := fun s =>
      if s = ghSkillsSel then
        some (["s01", "s02", "s03", "s04", "s05", "s06", "s07", "s08", "s09", "s10",
               "s11", "s12", "s13", "s14", "s15", "s16"].map
          (fun t => { href := none, text := t }))
      else some [],
    content := "" }

/-- Stack Overflow search fixture whose raw markup contains href-shaped
profile links but whose selector strategy matches nothing. -/
def pdSORich : PageData :=
  { sel := fun _ => none, selAll := fun _ => some [],
    content := "href=\"/users/99/zoe\" href=\"/users/7\"" }

/-- The normal-path close preserves the collected profile list. -/
theorem finishClose_profiles (env : Env) (ps : List Profile) (tr : List Event) :
    (finishClose env ps tr).profiles = ps := by
  unfold finishClose fatalClose
  split <;> rfl

/-- The fatal-handler close preserves the collected profile list. -/
theorem fatalClose_profiles (env : Env) (ps : List Profile) (tr : List Event) :
    (fatalClose env ps tr).profiles = ps := rfl

/-- When the fatal-handler close succeeds, the fatal path does not raise. -/
theorem fatalClose_raised (env : Env) (ps : List Profile) (tr : List Event)
    (h : env.closeHandlerOk = true) : (fatalClose env ps tr).raised = false := by
  unfold fatalClose
  simp [h]

/-- When the fatal-handler close succeeds, the normal close path never
raises (a failed normal close is retried in the handler). -/
theorem finishClose_raised (env : Env) (ps : List Profile) (tr : List Event)
    (h : env.closeHandlerOk = true) : (finishClose env ps tr).raised = false := by
  unfold finishClose
  split
  · rfl
  · exact fatalClose_raised env ps _ h

/-- A close event is always appended by the fatal path. -/
theorem fatalClose_close_mem (env : Env) (ps : List Profile) (tr : List Event) :
    Event.closeHandler ∈ (fatalClose env ps tr).trace := by
  unfold fatalClose
  simp

/-- A close event is always appended by the normal close path. -/
theorem finishClose_close_mem (env : Env) (ps : List Profile) (tr : List Event) :
    Event.closeNormal ∈ (finishClose env ps tr).trace := by
  unfold finishClose fatalClose
  split <;> simp

/-- The extra events of the closers are appended on the right, so the trace
prefix is preserved. -/
theorem finishClose_trace_pre (env : Env) (ps : List Profile) (tr : List Event) :
    ∃ c, (finishClose env ps tr).trace = tr ++ c := by
  unfold finishClose fatalClose
  split
  · exact ⟨[Event.closeNormal], rfl⟩
  · exact ⟨[Event.closeNormal, Event.closeHandler], by simp⟩

/-- The profiles produced by the GitHub / Stack Overflow loop are exactly
the successful attempts over the iterated URLs, in order. -/
theorem profileLoop_profiles (att : String → Option Profile) (urls : List String) :
    (profileLoop att urls).1 = urls.filterMap att := by
  have aux : ∀ (l : List String) (ps : List Profile) (tr : List Event),
      (l.foldl (profileStep att) (ps, tr)).1 = ps ++ l.filterMap att := by
    intro l
    induction l with
    | nil => intro ps tr; simp
    | cons u rest ih =>
      intro ps tr
      cases h : att u with
      | some pr =>
        simp only [List.foldl_cons, profileStep, h, List.filterMap_cons]
        rw [ih]
        simp
      | none =>
        simp only [List.foldl_cons, profileStep, h, List.filterMap_cons]
        rw [ih]
  simpa using aux urls [] []

/-- The profiles produced by the Behance / Dev.to counted loop are the first
`maxP - scraped` successful attempts over the remaining URLs. -/
theorem countedLoop_profiles (att : String → Option Profile) (maxP : Nat) :
    ∀ (urls : List String) (scraped : Nat) (ps : List Profile) (tr : List Event),
      (countedLoop att maxP urls scraped (ps, tr)).1
        = ps ++ (urls.filterMap att).take (maxP - scraped) := by
  intro urls
  induction urls with
  | nil => intro scraped ps tr; simp [countedLoop]
  | cons u rest ih =>
    intro scraped ps tr
    by_cases hs : maxP ≤ scraped
    · have h0 : maxP - scraped = 0 := Nat.sub_eq_zero_of_le hs
      simp [countedLoop, hs, h0]
    · have hlt : scraped < maxP := Nat.lt_of_not_le hs
      have hpos : 0 < maxP - scraped := Nat.sub_pos_of_lt hlt
      obtain ⟨j, hj⟩ : ∃ j, maxP - scraped = j + 1 :=
        ⟨maxP - scraped - 1, (Nat.succ_pred_eq_of_pos hpos).symm⟩
      cases h : att u with
      | some pr =>
        simp only [countedLoop, hs, if_false, h]
        rw [ih]
        have hj' : maxP - (scraped + 1) = j := by omega
        simp [List.filterMap_cons, h, hj, hj', List.take_succ_cons]
      | none =>
        simp only [countedLoop, hs, if_false, h]
        rw [ih]
        simp [List.filterMap_cons, h]

/-- Invariant carried by every discovery accumulator: no duplicates and no
URL from the exclusion set. -/
def candInv (ex acc : List String) : Prop := acc.Nodup ∧ ∀ u ∈ acc, u ∉ ex

/-- The empty accumulator satisfies the invariant. -/
theorem candInv_nil (ex : List String) : candInv ex [] := ⟨List.nodup_nil, by simp⟩

/-- The guarded append preserves the invariant. -/
theorem addCandidate_inv (ex acc : List String) (url : String) (h : candInv ex acc) :
    candInv ex (addCandidate ex acc url) := by
  unfold addCandidate
  split
  · rename_i hc
    refine ⟨?_, ?_⟩
    · exact List.Nodup.append h.1 (List.nodup_singleton url)
        (by intro a ha hb; simp at hb; subst hb; exact hc.1 ha)
    · intro u hu
      rcases List.mem_append.mp hu with h1 | h2
      · exact h.2 u h1
      · simp at h2; subst h2; exact hc.2
  · exact h

/-- A fold whose step preserves the invariant preserves the invariant. -/
theorem foldl_candInv {β : Type} (ex : List String) (f : List String → β → List String)
    (hf : ∀ acc b, candInv ex acc → candInv ex (f acc b)) :
    ∀ (l : List β) (acc : List String), candInv ex acc → candInv ex (l.foldl f acc) := by
  intro l
  induction l with
  | nil => intro acc h; exact h
  | cons b rest ih => intro acc h; exact ih (f acc b) (hf acc b h)

/-- The GitHub selector-phase link step preserves the invariant. -/
theorem ghLinkStep_inv (ex acc : List String) (link : Elem) (h : candInv ex acc) :
    candInv ex (ghLinkStep ex acc link) := by
  unfold ghLinkStep
  cases link.href with
  | none => exact h
  | some s =>
    simp only
    split
    · exact addCandidate_inv ex acc _ h
    · exact h

/-- The GitHub selector step preserves the invariant. -/
theorem ghSelStep_inv (pd : PageData) (ex acc : List String) (sel : String)
    (h : candInv ex acc) : candInv ex (ghSelStep pd ex acc sel) := by
  unfold ghSelStep
  cases pd.selAll sel with
  | none => exact h
  | some links => exact foldl_candInv ex _ (fun a b => ghLinkStep_inv ex a b) links acc h

/-- The GitHub selector phase satisfies the invariant. -/
theorem githubSelPhase_inv (pd : PageData) (ex : List String) :
    candInv ex (githubSelPhase pd ex) :=
  foldl_candInv ex _ (fun a b => ghSelStep_inv pd ex a b) githubSelectors [] (candInv_nil ex)

/-- The GitHub regex-fallback step preserves the invariant. -/
theorem ghMatchStep_inv (ex acc : List String) (m : String) (h : candInv ex acc) :
    candInv ex (ghMatchStep ex acc m) := by
  unfold ghMatchStep
  split
  · simp only
    split
    · exact addCandidate_inv ex acc _ h
    · exact h
  · exact h

/-- GitHub discovery output: no duplicates, nothing from `existing_urls`. -/
theorem githubDiscoverUrls_inv (pd : PageData) (ex : List String) :
    candInv ex (githubDiscoverUrls pd ex) := by
  unfold githubDiscoverUrls
  dsimp only
  split
  · exact foldl_candInv ex _ (fun a b => ghMatchStep_inv ex a b) _ _ (githubSelPhase_inv pd ex)
  · exact githubSelPhase_inv pd ex

/-- The Behance regex step preserves the invariant. -/
theorem behMatchStep_inv (ex acc : List String) (m : String) (h : candInv ex acc) :
    candInv ex (behMatchStep ex acc m) := by
  unfold behMatchStep
  dsimp only
  split
  · exact addCandidate_inv ex acc _ h
  · exact h

/-- Behance discovery output: no duplicates, nothing from `existing_urls`. -/
theorem behanceDiscoverUrls_inv (content : String) (ex : List String) :
    candInv ex (behanceDiscoverUrls content ex) :=
  foldl_candInv ex _ (fun a b => behMatchStep_inv ex a b) _ [] (candInv_nil ex)

/-- The Stack Overflow link step preserves the invariant. -/
theorem soLinkStep_inv (ex acc : List String) (link : Elem) (h : candInv ex acc) :
    candInv ex (soLinkStep ex acc link) := by
  unfold soLinkStep
  cases link.href with
  | none => exact h
  | some s =>
    dsimp only
    split
    · split
      · split
        · exact addCandidate_inv ex acc _ h
        · exact h
      · split
        · exact addCandidate_inv ex acc _ h
        · exact h
    · exact h

/-- Stack Overflow discovery output satisfies the invariant. -/
theorem soDiscoverUrls_inv (pd : PageData) (ex : List String) (urls : List String)
    (h : soDiscoverUrls? pd ex = some urls) : candInv ex urls := by
  unfold soDiscoverUrls? at h
  cases hsel : pd.selAll soUsersSel with
  | none => rw [hsel] at h; cases h
  | some links =>
    rw [hsel] at h
    simp only [Option.map_some'] at h
    cases h
    exact foldl_candInv ex _ (fun a b => soLinkStep_inv ex a b) links [] (candInv_nil ex)

/-- The Dev.to link step preserves the invariant. -/
theorem devtoLinkStep_inv (ex acc : List String) (link : Elem) (h : candInv ex acc) :
    candInv ex (devtoLinkStep ex acc link) := by
  unfold devtoLinkStep
  cases link.href with
  | none => exact h
  | some s =>
    dsimp only
    split
    · split
      · exact addCandidate_inv ex acc _ h
      · exact h
    · exact h

/-- Dev.to discovery output satisfies the invariant. -/
theorem devtoDiscoverUrls_inv (pd : PageData) (ex : List String) (urls : List String)
    (h : devtoDiscoverUrls? pd ex = some urls) : candInv ex urls := by
  unfold devtoDiscoverUrls? at h
  cases hsel : pd.selAll devtoAuthorSel with
  | none => rw [hsel] at h; cases h
  | some links =>
    rw [hsel] at h
    simp only [Option.map_some'] at h
    cases h
    exact foldl_candInv ex _ (fun a b => devtoLinkStep_inv ex a b) links [] (candInv_nil ex)

/-- The GitHub extractor returns the navigated URL as `profileUrl`. -/
theorem extract_github_profile_url (pd : PageData) (url : String) :
    (extract_github_profile pd url).profileUrl = url := rfl

/-- The Behance extractor returns the navigated URL as `profileUrl`. -/
theorem extract_behance_profile_url (pd : PageData) (url : String) :
    (extract_behance_profile pd url).profileUrl = url := rfl

/-- The Stack Overflow extractor returns the navigated URL as `profileUrl`. -/
theorem extract_stackoverflow_profile_url (pd : PageData) (url : String) :
    (extract_stackoverflow_profile pd url).profileUrl = url := rfl

/-- The Dev.to extractor returns the navigated URL as `profileUrl`. -/
theorem extract_devto_profile_url (pd : PageData) (url : String) :
    (extract_devto_profile pd url).profileUrl = url := rfl

/-- A successful loop attempt is the extracted record with the source tag
attached, and it passed the nonempty-name guard. -/
theorem mkAttempt_some {env : Env} {check : PageData → Bool}
    {ext : PageData → String → Profile} {tag url : String} {pr : Profile}
    (h : mkAttempt env check ext tag url = some pr) :
    pr = { ext (env.profilePage url) url with source := tag } ∧
    (ext (env.profilePage url) url).fullName ≠ "" := by
  unfold mkAttempt at h
  split at h
  · dsimp only at h
    split at h
    · split at h
      · rename_i hname
        exact ⟨(Option.some.inj h).symm, hname⟩
      · cases h
    · cases h
  · cases h

/-- Facts about a successful GitHub attempt. -/
theorem ghAttempt_some {env : Env} {url : String} {pr : Profile}
    (h : ghAttempt env url = some pr) :
    pr.fullName ≠ "" ∧ pr.profileUrl = url ∧ pr.source = "GitHub" := by
  unfold ghAttempt at h
  obtain ⟨heq, hn⟩ := mkAttempt_some h
  subst heq
  exact ⟨hn, rfl, rfl⟩

/-- Facts about a successful Behance attempt. -/
theorem behAttempt_some {env : Env} {url : String} {pr : Profile}
    (h : behAttempt env url = some pr) :
    pr.fullName ≠ "" ∧ pr.profileUrl = url ∧ pr.source = "Behance" := by
  unfold behAttempt at h
  obtain ⟨heq, hn⟩ := mkAttempt_some h
  subst heq
  exact ⟨hn, rfl, rfl⟩

/-- Facts about a successful Stack Overflow attempt. -/
theorem soAttempt_some {env : Env} {url : String} {pr : Profile}
    (h : soAttempt env url = some pr) :
    pr.fullName ≠ "" ∧ pr.profileUrl = url ∧ pr.source = "Stack Overflow" := by
  unfold soAttempt at h
  obtain ⟨heq, hn⟩ := mkAttempt_some h
  subst heq
  exact ⟨hn, rfl, rfl⟩

/-- Facts about a successful Dev.to attempt. -/
theorem devtoAttempt_some {env : Env} {url : String} {pr : Profile}
    (h : devtoAttempt env url = some pr) :
    pr.fullName ≠ "" ∧ pr.profileUrl = url ∧ pr.source = "Dev.to" := by
  unfold devtoAttempt at h
  obtain ⟨heq, hn⟩ := mkAttempt_some h
  subst heq
  exact ⟨hn, rfl, rfl⟩

/-- The profile URLs of the successful attempts form a sublist of the
attempted URLs (order preserved, at most one record per URL). -/
theorem filterMap_profileUrl_sublist (att : String → Option Profile)
    (hatt : ∀ url pr, att url = some pr → pr.profileUrl = url) :
    ∀ urls : List String,
      List.Sublist ((urls.filterMap att).map (fun pr => pr.profileUrl)) urls := by
  intro urls
  induction urls with
  | nil => simp
  | cons u rest ih =>
    cases h : att u with
    | some pr =>
      rw [List.filterMap_cons_some h]
      simp only [List.map_cons, hatt u pr h]
      exact List.Sublist.cons₂ u ih
    | none =>
      rw [List.filterMap_cons_none h]
      exact List.Sublist.cons u ih

/-- GitHub scrape: either an aborted session (empty list) or exactly the
successful attempts over the first `max_profiles` discovered URLs. -/
theorem scrape_github_profiles_cases (env : Env) (q l : String) (m : Nat) (ex : List String) :
    (scrape_github_profiles env q l m ex).profiles = [] ∨
    (scrape_github_profiles env q l m ex).profiles
      = ((githubDiscoverUrls env.searchPage ex).take m).filterMap (ghAttempt env) := by
  unfold scrape_github_profiles
  dsimp only
  split
  · split
    · right
      rw [finishClose_profiles, profileLoop_profiles]
    · left
      exact fatalClose_profiles env [] _
  · left
    rfl

/-- Behance scrape: either an aborted session or the first `max_profiles`
successful attempts over all discovered URLs. -/
theorem scrape_behance_profiles_cases (env : Env) (q l : String) (m : Nat) (ex : List String) :
    (scrape_behance_profiles env q l m ex).profiles = [] ∨
    (scrape_behance_profiles env q l m ex).profiles
      = ((behanceDiscoverUrls env.searchPage.content ex).filterMap (behAttempt env)).take m := by
  unfold scrape_behance_profiles
  dsimp only
  split
  · split
    · right
      rw [finishClose_profiles, countedLoop_profiles]
      simp
    · left
      exact fatalClose_profiles env [] _
  · left
    rfl

/-- Stack Overflow scrape: aborted session, or the successful attempts over
the first `max_profiles` discovered URLs. -/
theorem scrape_stackoverflow_profiles_cases (env : Env) (q l : String) (m : Nat)
    (ex : List String) :
    (scrape_stackoverflow_profiles env q l m ex).profiles = [] ∨
    ∃ urls, soDiscoverUrls? env.searchPage ex = some urls ∧
      (scrape_stackoverflow_profiles env q l m ex).profiles
        = (urls.take m).filterMap (soAttempt env) := by
  unfold scrape_stackoverflow_profiles
  dsimp only
  split
  · split
    · cases hd : soDiscoverUrls? env.searchPage ex with
      | none => left; exact fatalClose_profiles env [] _
      | some urls =>
        right
        refine ⟨urls, rfl, ?_⟩
        dsimp only
        rw [finishClose_profiles, profileLoop_profiles]
    · left
      exact fatalClose_profiles env [] _
  · left
    rfl

/-- Dev.to scrape: aborted session, or the first `max_profiles` successful
attempts over all discovered URLs. -/
theorem scrape_devto_profiles_cases (env : Env) (q : String) (m : Nat) (ex : List String) :
    (scrape_devto_profiles env q m ex).profiles = [] ∨
    ∃ urls, devtoDiscoverUrls? env.searchPage ex = some urls ∧
      (scrape_devto_profiles env q m ex).profiles
        = (urls.filterMap (devtoAttempt env)).take m := by
  unfold scrape_devto_profiles
  dsimp only
  split
  · split
    · cases hd : devtoDiscoverUrls? env.searchPage ex with
      | none => left; exact fatalClose_profiles env [] _
      | some urls =>
        right
        refine ⟨urls, rfl, ?_⟩
        dsimp only
        rw [finishClose_profiles, countedLoop_profiles]
        simp
    · left
      exact fatalClose_profiles env [] _
  · left
    rfl

/-- GitHub scrape never raises when the handler close succeeds. -/
theorem scrape_github_raised (env : Env) (q l : String) (m : Nat) (ex : List String)
    (h : env.closeHandlerOk = true) : (scrape_github_profiles env q l m ex).raised = false := by
  unfold scrape_github_profiles
  dsimp only
  split
  · split
    · exact finishClose_raised env _ _ h
    · exact fatalClose_raised env _ _ h
  · rfl

/-- Behance scrape never raises when the handler close succeeds. -/
theorem scrape_behance_raised (env : Env) (q l : String) (m : Nat) (ex : List String)
    (h : env.closeHandlerOk = true) : (scrape_behance_profiles env q l m ex).raised = false := by
  unfold scrape_behance_profiles
  dsimp only
  split
  · split
    · exact finishClose_raised env _ _ h
    · exact fatalClose_raised env _ _ h
  · rfl

/-- Stack Overflow scrape never raises when the handler close succeeds. -/
theorem scrape_stackoverflow_raised (env : Env) (q l : String) (m : Nat) (ex : List String)
    (h : env.closeHandlerOk = true) :
    (scrape_stackoverflow_profiles env q l m ex).raised = false := by
  unfold scrape_stackoverflow_profiles
  dsimp only
  split
  · split
    · cases soDiscoverUrls? env.searchPage ex with
      | none => exact fatalClose_raised env _ _ h
      | some urls => exact finishClose_raised env _ _ h
    · exact fatalClose_raised env _ _ h
  · rfl

/-- Dev.to scrape never raises when the handler close succeeds. -/
theorem scrape_devto_raised (env : Env) (q : String) (m : Nat) (ex : List String)
    (h : env.closeHandlerOk = true) : (scrape_devto_profiles env q m ex).raised = false := by
  unfold scrape_devto_profiles
  dsimp only
  split
  · split
    · cases devtoDiscoverUrls? env.searchPage ex with
      | none => exact fatalClose_raised env _ _ h
      | some urls => exact finishClose_raised env _ _ h
    · exact fatalClose_raised env _ _ h
  · rfl

/-- Without a successful launch, the GitHub scrape records no events. -/
theorem scrape_github_trace_nolaunch (env : Env) (q l : String) (m : Nat) (ex : List String)
    (h : env.launchOk = false) : (scrape_github_profiles env q l m ex).trace = [] := by
  unfold scrape_github_profiles
  simp [h]

/-- Without a successful launch, the Behance scrape records no events. -/
theorem scrape_behance_trace_nolaunch (env : Env) (q l : String) (m : Nat) (ex : List String)
    (h : env.launchOk = false) : (scrape_behance_profiles env q l m ex).trace = [] := by
  unfold scrape_behance_profiles
  simp [h]

/-- Without a successful launch, the Stack Overflow scrape records no
events. -/
theorem scrape_stackoverflow_trace_nolaunch (env : Env) (q l : String) (m : Nat)
    (ex : List String) (h : env.launchOk = false) :
    (scrape_stackoverflow_profiles env q l m ex).trace = [] := by
  unfold scrape_stackoverflow_profiles
  simp [h]

/-- Without a successful launch, the Dev.to scrape records no events. -/
theorem scrape_devto_trace_nolaunch (env : Env) (q : String) (m : Nat) (ex : List String)
    (h : env.launchOk = false) : (scrape_devto_profiles env q m ex).trace = [] := by
  unfold scrape_devto_profiles
  simp [h]

/-- After a successful launch, a close is invoked on every GitHub exit
path. -/
theorem scrape_github_close (env : Env) (q l : String) (m : Nat) (ex : List String)
    (h : env.launchOk = true) :
    Event.closeNormal ∈ (scrape_github_profiles env q l m ex).trace ∨
    Event.closeHandler ∈ (scrape_github_profiles env q l m ex).trace := by
  unfold scrape_github_profiles
  simp only [h, if_true]
  split
  · exact Or.inl (finishClose_close_mem env _ _)
  · exact Or.inr (fatalClose_close_mem env _ _)

/-- After a successful launch, a close is invoked on every Behance exit
path. -/
theorem scrape_behance_close (env : Env) (q l : String) (m : Nat) (ex : List String)
    (h : env.launchOk = true) :
    Event.closeNormal ∈ (scrape_behance_profiles env q l m ex).trace ∨
    Event.closeHandler ∈ (scrape_behance_profiles env q l m ex).trace := by
  unfold scrape_behance_profiles
  simp only [h, if_true]
  split
  · exact Or.inl (finishClose_close_mem env _ _)
  · exact Or.inr (fatalClose_close_mem env _ _)

/-- After a successful launch, a close is invoked on every Stack Overflow
exit path. -/
theorem scrape_stackoverflow_close (env : Env) (q l : String) (m : Nat) (ex : List String)
    (h : env.launchOk = true) :
    Event.closeNormal ∈ (scrape_stackoverflow_profiles env q l m ex).trace ∨
    Event.closeHandler ∈ (scrape_stackoverflow_profiles env q l m ex).trace := by
  unfold scrape_stackoverflow_profiles
  simp only [h, if_true]
  split
  · cases soDiscoverUrls? env.searchPage ex with
    | none => exact Or.inr (fatalClose_close_mem env _ _)
    | some urls => exact Or.inl (finishClose_close_mem env _ _)
  · exact Or.inr (fatalClose_close_mem env _ _)

/-- After a successful launch, a close is invoked on every Dev.to exit
path. -/
theorem scrape_devto_close (env : Env) (q : String) (m : Nat) (ex : List String)
    (h : env.launchOk = true) :
    Event.closeNormal ∈ (scrape_devto_profiles env q m ex).trace ∨
    Event.closeHandler ∈ (scrape_devto_profiles env q m ex).trace := by
  unfold scrape_devto_profiles
  simp only [h, if_true]
  split
  · cases devtoDiscoverUrls? env.searchPage ex with
    | none => exact Or.inr (fatalClose_close_mem env _ _)
    | some urls => exact Or.inl (finishClose_close_mem env _ _)
  · exact Or.inr (fatalClose_close_mem env _ _)

/-- After a successful launch, the GitHub session begins with the launch
and the navigation to the GitHub search URL. -/
theorem scrape_github_trace_take2 (env : Env) (q l : String) (m : Nat) (ex : List String)
    (h : env.launchOk = true) :
    (scrape_github_profiles env q l m ex).trace.take 2
      = [Event.launch, Event.goto (githubSearchUrl q l)] := by
  unfold scrape_github_profiles
  simp only [h, if_true]
  split
  · obtain ⟨c, hc⟩ := finishClose_trace_pre env
      (profileLoop (ghAttempt env) ((githubDiscoverUrls env.searchPage ex).take m)).1
      (Event.launch :: Event.goto (githubSearchUrl q l) ::
        (profileLoop (ghAttempt env) ((githubDiscoverUrls env.searchPage ex).take m)).2)
    rw [hc]
    rfl
  · rfl

/-- After a successful launch, the Behance session begins with the launch
and the navigation to the Behance search URL. -/
theorem scrape_behance_trace_take2 (env : Env) (q l : String) (m : Nat) (ex : List String)
    (h : env.launchOk = true) :
    (scrape_behance_profiles env q l m ex).trace.take 2
      = [Event.launch, Event.goto (behanceSearchUrl q l)] := by
  unfold scrape_behance_profiles
  simp only [h, if_true]
  split
  · obtain ⟨c, hc⟩ := finishClose_trace_pre env
      (countedLoop (behAttempt env) m
        (behanceDiscoverUrls env.searchPage.content ex) 0 ([], [])).1
      (Event.launch :: Event.goto (behanceSearchUrl q l) ::
        (countedLoop (behAttempt env) m
          (behanceDiscoverUrls env.searchPage.content ex) 0 ([], [])).2)
    rw [hc]
    rfl
  · rfl

/-- After a successful launch, the Stack Overflow session begins with the
launch and the navigation to the fixed users-by-reputation URL. -/
theorem scrape_stackoverflow_trace_take2 (env : Env) (q l : String) (m : Nat)
    (ex : List String) (h : env.launchOk = true) :
    (scrape_stackoverflow_profiles env q l m ex).trace.take 2
      = [Event.launch, Event.goto soSearchUrl] := by
  unfold scrape_stackoverflow_profiles
  simp only [h, if_true]
  split
  · cases soDiscoverUrls? env.searchPage ex with
    | none => rfl
    | some urls =>
      obtain ⟨c, hc⟩ := finishClose_trace_pre env
        (profileLoop (soAttempt env) (urls.take m)).1
        (Event.launch :: Event.goto soSearchUrl ::
          (profileLoop (soAttempt env) (urls.take m)).2)
      rw [hc]
      rfl
  · rfl

/-- After a successful launch, the Dev.to session begins with the launch
and the navigation to the fixed Dev.to homepage. -/
theorem scrape_devto_trace_take2 (env : Env) (q : String) (m : Nat) (ex : List String)
    (h : env.launchOk = true) :
    (scrape_devto_profiles env q m ex).trace.take 2
      = [Event.launch, Event.goto devtoStartUrl] := by
  unfold scrape_devto_profiles
  simp only [h, if_true]
  split
  · cases devtoDiscoverUrls? env.searchPage ex with
    | none => rfl
    | some urls =>
      obtain ⟨c, hc⟩ := finishClose_trace_pre env
        (countedLoop (devtoAttempt env) m urls 0 ([], [])).1
        (Event.launch :: Event.goto devtoStartUrl ::
          (countedLoop (devtoAttempt env) m urls 0 ([], [])).2)
      rw [hc]
      rfl
  · rfl

/-- Generic preservation of a predicate along a left fold. -/
theorem foldl_pres {α β : Type} (P : α → Prop) (f : α → β → α)
    (hf : ∀ a b, P a → P (f a b)) :
    ∀ (l : List β) (a : α), P a → P (l.foldl f a) := by
  intro l
  induction l with
  | nil => intro a h; exact h
  | cons b rest ih => intro a h; exact ih (f a b) (hf a b h)

/-- Each deduplicating harvest step keeps the accumulator duplicate-free. -/
theorem dedupStep_nodup (acc : List String) (el : Elem) (h : acc.Nodup) :
    (dedupStep acc el).Nodup := by
  unfold dedupStep
  dsimp only
  split
  · rename_i hc
    exact List.Nodup.append h (List.nodup_singleton _)
      (by intro a ha hb; simp at hb; subst hb; exact hc.2 ha)
  · exact h

/-- The deduplicating skill harvest yields no duplicates. -/
theorem dedupCollect_nodup (els : List Elem) : (dedupCollect els).Nodup :=
  foldl_pres List.Nodup dedupStep dedupStep_nodup els [] List.nodup_nil

/-- Each step of either skill harvest appends at most the trimmed text of
its element. -/
theorem dedupStep_cases (acc : List String) (el : Elem) :
    dedupStep acc el = acc ++ [pyStrip el.text] ∨ dedupStep acc el = acc := by
  unfold dedupStep
  dsimp only
  split
  · exact Or.inl rfl
  · exact Or.inr rfl

/-- The Behance harvest step appends at most the trimmed text. -/
theorem behSkillStep_cases (acc : List String) (el : Elem) :
    behSkillStep acc el = acc ++ [pyStrip el.text] ∨ behSkillStep acc el = acc := by
  unfold behSkillStep
  dsimp only
  split
  · exact Or.inl rfl
  · exact Or.inr rfl

/-- Any fold whose step appends at most the trimmed text of each element
produces an order-preserving selection of the trimmed texts. -/
theorem foldl_append_sublist (step : List String → Elem → List String)
    (hstep : ∀ acc e, step acc e = acc ++ [pyStrip e.text] ∨ step acc e = acc) :
    ∀ (els : List Elem) (acc : List String),
      ∃ t, els.foldl step acc = acc ++ t ∧
        List.Sublist t (els.map (fun e => pyStrip e.text)) := by
  intro els
  induction els with
  | nil => intro acc; exact ⟨[], by simp, by simp⟩
  | cons e rest ih =>
    intro acc
    rcases hstep acc e with hadd | hkeep
    · obtain ⟨t, ht, hs⟩ := ih (acc ++ [pyStrip e.text])
      refine ⟨pyStrip e.text :: t, ?_, ?_⟩
      · rw [List.foldl_cons, hadd, ht]
        simp
      · simp only [List.map_cons]
        exact List.Sublist.cons₂ _ hs
    · obtain ⟨t, ht, hs⟩ := ih acc
      refine ⟨t, by rw [List.foldl_cons, hkeep, ht], ?_⟩
      simp only [List.map_cons]
      exact List.Sublist.cons _ hs

/-- The deduplicating skill harvest preserves page order. -/
theorem dedupCollect_sublist (els : List Elem) :
    List.Sublist (dedupCollect els) (els.map (fun e => pyStrip e.text)) := by
  obtain ⟨t, ht, hs⟩ := foldl_append_sublist dedupStep dedupStep_cases els []
  unfold dedupCollect
  rw [ht]
  simpa using hs

/-- The Behance skill harvest preserves page order within the first 10
elements. -/
theorem behanceSkillsCollect_sublist (els : List Elem) :
    List.Sublist (behanceSkillsCollect els) ((els.take 10).map (fun e => pyStrip e.text)) := by
  obtain ⟨t, ht, hs⟩ := foldl_append_sublist behSkillStep behSkillStep_cases (els.take 10) []
  unfold behanceSkillsCollect
  rw [ht]
  simpa using hs

/-- The Behance skill harvest yields at most 10 skills. -/
theorem behanceSkillsCollect_len (els : List Elem) :
    (behanceSkillsCollect els).length ≤ 10 := by
  have h := List.Sublist.length_le (behanceSkillsCollect_sublist els)
  rw [List.length_map] at h
  exact le_trans h (by rw [List.length_take]; exact min_le_left _ _)

/-- The skills field of the GitHub extractor. -/
theorem extract_github_skills (pd : PageData) (url : String) :
    (extract_github_profile pd url).skills = dedupCollect (ghSkillEls pd) := rfl

/-- The skills field of the Behance extractor. -/
theorem extract_behance_skills (pd : PageData) (url : String) :
    (extract_behance_profile pd url).skills = behanceSkillsCollect (behSkillEls pd) := rfl

/-- The skills field of the Stack Overflow extractor. -/
theorem extract_stackoverflow_skills (pd : PageData) (url : String) :
    (extract_stackoverflow_profile pd url).skills = dedupCollect ((soSkillEls pd).take 15) := rfl

/-- The skills field of the Dev.to extractor. -/
theorem extract_devto_skills (pd : PageData) (url : String) :
    (extract_devto_profile pd url).skills = [] := rfl

/-- With 3 or more selector-phase candidates, the GitHub regex fallback is
not run and the raw markup is never consulted. -/
theorem githubDiscoverUrls_of_ge (pd : PageData) (ex : List String)
    (h : 3 ≤ (githubSelPhase pd ex).length) :
    githubDiscoverUrls pd ex = githubSelPhase pd ex := by
  unfold githubDiscoverUrls
  dsimp only
  rw [if_neg (by omega)]

/-- With fewer than 3 selector-phase candidates, the GitHub regex fallback
folds the filtered markup matches onto the selector-phase candidates. -/
theorem githubDiscoverUrls_of_lt (pd : PageData) (ex : List String)
    (h : (githubSelPhase pd ex).length < 3) :
    githubDiscoverUrls pd ex
      = (reFindallHref "href=\"" "/" pd.content).foldl (ghMatchStep ex) (githubSelPhase pd ex) := by
  unfold githubDiscoverUrls
  dsimp only
  rw [if_pos h]

/-- Shape enforced on every candidate added by the GitHub regex fallback:
a single-segment path of length at least 2 whose lower-cased form is not on
the denylist. -/
def ghFallbackShape (u : String) : Prop :=
  ∃ m, u = "https://github.com" ++ m ∧ countChar m '/' = 1 ∧
    pyDrop m 1 ≠ "" ∧ 1 < (pyDrop m 1).length ∧ pyLower (pyDrop m 1) ∉ githubSkipPaths

/-- The GitHub regex step only ever adds candidates of the filtered shape. -/
theorem ghMatchStep_shape (ex sel0 : List String) (acc : List String) (m : String)
    (h : ∀ u ∈ acc, u ∈ sel0 ∨ ghFallbackShape u) :
    ∀ u ∈ ghMatchStep ex acc m, u ∈ sel0 ∨ ghFallbackShape u := by
  unfold ghMatchStep
  dsimp only
  split
  · split
    · unfold addCandidate
      split
      · intro u hu
        rcases List.mem_append.mp hu with h1 | h2
        · exact h u h1
        · simp at h2
          subst h2
          rename_i hcount hpath _
          exact Or.inr ⟨m, rfl, hcount, hpath.1, hpath.2.1, hpath.2.2⟩
      · exact h
    · exact h
  · exact h

/-- Every discovered GitHub URL either came from the selector phase or has
the denylist-and-shape-filtered fallback form. -/
theorem githubDiscoverUrls_shape (pd : PageData) (ex : List String) :
    ∀ u ∈ githubDiscoverUrls pd ex,
      u ∈ githubSelPhase pd ex ∨ ghFallbackShape u := by
  by_cases h3 : (githubSelPhase pd ex).length < 3
  · rw [githubDiscoverUrls_of_lt pd ex h3]
    exact foldl_pres (fun acc => ∀ u ∈ acc, u ∈ githubSelPhase pd ex ∨ ghFallbackShape u)
      (ghMatchStep ex) (fun a b hp => ghMatchStep_shape ex _ a b hp)
      (reFindallHref "href=\"" "/" pd.content) (githubSelPhase pd ex)
      (fun u hu => Or.inl hu)
  · rw [githubDiscoverUrls_of_ge pd ex (by omega)]
    exact fun u hu => Or.inl hu

/-- The GitHub selector phase reads only `query_selector_all`. -/
theorem githubSelPhase_content_free (pd pd' : PageData) (ex : List String)
    (h : pd.selAll = pd'.selAll) : githubSelPhase pd ex = githubSelPhase pd' ex := by
  unfold githubSelPhase ghSelStep
  rw [h]

/-- Stack Overflow discovery never consults the raw markup. -/
theorem soDiscoverUrls_content_free (pd pd' : PageData) (ex : List String)
    (h : pd.selAll = pd'.selAll) : soDiscoverUrls? pd ex = soDiscoverUrls? pd' ex := by
  unfold soDiscoverUrls?
  rw [h]

/-- Dev.to discovery never consults the raw markup. -/
theorem devtoDiscoverUrls_content_free (pd pd' : PageData) (ex : List String)
    (h : pd.selAll = pd'.selAll) : devtoDiscoverUrls? pd ex = devtoDiscoverUrls? pd' ex := by
  unfold devtoDiscoverUrls?
  rw [h]

/-- The GitHub search URL distinguishes the two sample queries for every
location (the query is embedded verbatim, so URLs of queries of different
lengths differ). -/
theorem githubSearchUrl_query_inj (l : String) :
    githubSearchUrl "go" l ≠ githubSearchUrl "java" l := by
  intro h
  have h2 := congrArg String.length h
  simp only [githubSearchUrl, String.length_append] at h2
  have hg : ("go" : String).length = 2 := rfl
  have hj : ("java" : String).length = 4 := rfl
  rw [hg, hj] at h2
  omega

/-- The Behance search URL distinguishes the two sample queries for every
location. -/
theorem behanceSearchUrl_query_inj (l : String) :
    behanceSearchUrl "go" l ≠ behanceSearchUrl "java" l := by
  intro h
  have h2 := congrArg String.length h
  simp only [behanceSearchUrl, String.length_append] at h2
  have hg : ("go" : String).length = 2 := rfl
  have hj : ("java" : String).length = 4 := rfl
  rw [hg, hj] at h2
  omega

/-- GitHub result length never exceeds the cap. -/
theorem scrape_github_len (env : Env) (q l : String) (m : Nat) (ex : List String) :
    (scrape_github_profiles env q l m ex).profiles.length ≤ m := by
  rcases scrape_github_profiles_cases env q l m ex with h | h <;> rw [h]
  · simp
  · exact le_trans (List.length_filterMap_le _ _)
      (by rw [List.length_take]; exact min_le_left _ _)

/-- Behance result length never exceeds the cap. -/
theorem scrape_behance_len (env : Env) (q l : String) (m : Nat) (ex : List String) :
    (scrape_behance_profiles env q l m ex).profiles.length ≤ m := by
  rcases scrape_behance_profiles_cases env q l m ex with h | h <;> rw [h]
  · simp
  · rw [List.length_take]
    exact min_le_left _ _

/-- Stack Overflow result length never exceeds the cap. -/
theorem scrape_stackoverflow_len (env : Env) (q l : String) (m : Nat) (ex : List String) :
    (scrape_stackoverflow_profiles env q l m ex).profiles.length ≤ m := by
  rcases scrape_stackoverflow_profiles_cases env q l m ex with h | ⟨urls, _, h⟩ <;> rw [h]
  · simp
  · exact le_trans (List.length_filterMap_le _ _)
      (by rw [List.length_take]; exact min_le_left _ _)

/-- Dev.to result length never exceeds the cap. -/
theorem scrape_devto_len (env : Env) (q : String) (m : Nat) (ex : List String) :
    (scrape_devto_profiles env q m ex).profiles.length ≤ m := by
  rcases scrape_devto_profiles_cases env q m ex with h | ⟨urls, _, h⟩ <;> rw [h]
  · simp
  · rw [List.length_take]
    exact min_le_left _ _

/-- GitHub result URLs: no duplicates, nothing from `existing_urls`. -/
theorem scrape_github_urls (env : Env) (q l : String) (m : Nat) (ex : List String) :
    ((scrape_github_profiles env q l m ex).profiles.map (fun pr => pr.profileUrl)).Nodup ∧
    ∀ u ∈ (scrape_github_profiles env q l m ex).profiles.map (fun pr => pr.profileUrl),
      u ∉ ex := by
  rcases scrape_github_profiles_cases env q l m ex with h | h <;> rw [h]
  · simp
  · have hsub := List.Sublist.trans
      (filterMap_profileUrl_sublist (ghAttempt env)
        (fun url pr hp => (ghAttempt_some hp).2.1)
        ((githubDiscoverUrls env.searchPage ex).take m))
      (List.take_sublist m (githubDiscoverUrls env.searchPage ex))
    obtain ⟨hnd, hex⟩ := githubDiscoverUrls_inv env.searchPage ex
    exact ⟨List.Nodup.sublist hsub hnd, fun u hu => hex u (hsub.subset hu)⟩

/-- Behance result URLs: no duplicates, nothing from `existing_urls`. -/
theorem scrape_behance_urls (env : Env) (q l : String) (m : Nat) (ex : List String) :
    ((scrape_behance_profiles env q l m ex).profiles.map (fun pr => pr.profileUrl)).Nodup ∧
    ∀ u ∈ (scrape_behance_profiles env q l m ex).profiles.map (fun pr => pr.profileUrl),
      u ∉ ex := by
  rcases scrape_behance_profiles_cases env q l m ex with h | h <;> rw [h]
  · simp
  · rw [List.map_take]
    have hsub := List.Sublist.trans
      (List.take_sublist m (((behanceDiscoverUrls env.searchPage.content ex).filterMap
        (behAttempt env)).map (fun pr => pr.profileUrl)))
      (filterMap_profileUrl_sublist (behAttempt env)
        (fun url pr hp => (behAttempt_some hp).2.1)
        (behanceDiscoverUrls env.searchPage.content ex))
    obtain ⟨hnd, hex⟩ := behanceDiscoverUrls_inv env.searchPage.content ex
    exact ⟨List.Nodup.sublist hsub hnd, fun u hu => hex u (hsub.subset hu)⟩

/-- Stack Overflow result URLs: no duplicates, nothing from
`existing_urls`. -/
theorem scrape_stackoverflow_urls (env : Env) (q l : String) (m : Nat) (ex : List String) :
    ((scrape_stackoverflow_profiles env q l m ex).profiles.map
      (fun pr => pr.profileUrl)).Nodup ∧
    ∀ u ∈ (scrape_stackoverflow_profiles env q l m ex).profiles.map
      (fun pr => pr.profileUrl), u ∉ ex := by
  rcases scrape_stackoverflow_profiles_cases env q l m ex with h | ⟨urls, hd, h⟩ <;> rw [h]
  · simp
  · have hsub := List.Sublist.trans
      (filterMap_profileUrl_sublist (soAttempt env)
        (fun url pr hp => (soAttempt_some hp).2.1) (urls.take m))
      (List.take_sublist m urls)
    obtain ⟨hnd, hex⟩ := soDiscoverUrls_inv env.searchPage ex urls hd
    exact ⟨List.Nodup.sublist hsub hnd, fun u hu => hex u (hsub.subset hu)⟩

/-- Dev.to result URLs: no duplicates, nothing from `existing_urls`. -/
theorem scrape_devto_urls (env : Env) (q : String) (m : Nat) (ex : List String) :
    ((scrape_devto_profiles env q m ex).profiles.map (fun pr => pr.profileUrl)).Nodup ∧
    ∀ u ∈ (scrape_devto_profiles env q m ex).profiles.map (fun pr => pr.profileUrl),
      u ∉ ex := by
  rcases scrape_devto_profiles_cases env q m ex with h | ⟨urls, hd, h⟩ <;> rw [h]
  · simp
  · rw [List.map_take]
    have hsub := List.Sublist.trans
      (List.take_sublist m ((urls.filterMap (devtoAttempt env)).map
        (fun pr => pr.profileUrl)))
      (filterMap_profileUrl_sublist (devtoAttempt env)
        (fun url pr hp => (devtoAttempt_some hp).2.1) urls)
    obtain ⟨hnd, hex⟩ := devtoDiscoverUrls_inv env.searchPage ex urls hd
    exact ⟨List.Nodup.sublist hsub hnd, fun u hu => hex u (hsub.subset hu)⟩

/-- Every GitHub result has a nonempty name. -/
theorem scrape_github_names (env : Env) (q l : String) (m : Nat) (ex : List String) :
    ∀ pr ∈ (scrape_github_profiles env q l m ex).profiles, pr.fullName ≠ "" := by
  rcases scrape_github_profiles_cases env q l m ex with h | h <;> rw [h]
  · simp
  · intro pr hpr
    obtain ⟨url, _, hatt⟩ := List.mem_filterMap.mp hpr
    exact (ghAttempt_some hatt).1

/-- Every Behance result has a nonempty name. -/
theorem scrape_behance_names (env : Env) (q l : String) (m : Nat) (ex : List String) :
    ∀ pr ∈ (scrape_behance_profiles env q l m ex).profiles, pr.fullName ≠ "" := by
  rcases scrape_behance_profiles_cases env q l m ex with h | h <;> rw [h]
  · simp
  · intro pr hpr
    obtain ⟨url, _, hatt⟩ := List.mem_filterMap.mp (List.mem_of_mem_take hpr)
    exact (behAttempt_some hatt).1

/-- Every Stack Overflow result has a nonempty name. -/
theorem scrape_stackoverflow_names (env : Env) (q l : String) (m : Nat) (ex : List String) :
    ∀ pr ∈ (scrape_stackoverflow_profiles env q l m ex).profiles, pr.fullName ≠ "" := by
  rcases scrape_stackoverflow_profiles_cases env q l m ex with h | ⟨urls, _, h⟩ <;> rw [h]
  · simp
  · intro pr hpr
    obtain ⟨url, _, hatt⟩ := List.mem_filterMap.mp hpr
    exact (soAttempt_some hatt).1

/-- Every Dev.to result has a nonempty name. -/
theorem scrape_devto_names (env : Env) (q : String) (m : Nat) (ex : List String) :
    ∀ pr ∈ (scrape_devto_profiles env q m ex).profiles, pr.fullName ≠ "" := by
  rcases scrape_devto_profiles_cases env q m ex with h | ⟨urls, _, h⟩ <;> rw [h]
  · simp
  · intro pr hpr
    obtain ⟨url, _, hatt⟩ := List.mem_filterMap.mp (List.mem_of_mem_take hpr)
    exact (devtoAttempt_some hatt).1

/-- GitHub happy path: the result is the successful attempts over the first
`max_profiles` discovered URLs (cap applied to candidates, not to
successes). -/
theorem scrape_github_profiles_eq (env : Env) (q l : String) (m : Nat) (ex : List String)
    (hL : env.launchOk = true) (hN : env.gotoOk (githubSearchUrl q l) = true) :
    (scrape_github_profiles env q l m ex).profiles
      = ((githubDiscoverUrls env.searchPage ex).take m).filterMap (ghAttempt env) := by
  unfold scrape_github_profiles
  simp only [hL, if_true]
  simp only [hN, if_true]
  rw [finishClose_profiles, profileLoop_profiles]

/-- Behance happy path: the result is the first `max_profiles` successes
over all discovered URLs (cap applied to successes). -/
theorem scrape_behance_profiles_eq (env : Env) (q l : String) (m : Nat) (ex : List String)
    (hL : env.launchOk = true) (hN : env.gotoOk (behanceSearchUrl q l) = true) :
    (scrape_behance_profiles env q l m ex).profiles
      = ((behanceDiscoverUrls env.searchPage.content ex).filterMap (behAttempt env)).take m := by
  unfold scrape_behance_profiles
  simp only [hL, if_true]
  simp only [hN, if_true]
  rw [finishClose_profiles, countedLoop_profiles]
  simp

/-- Stack Overflow happy path: cap applied to candidates. -/
theorem scrape_stackoverflow_profiles_eq (env : Env) (q l : String) (m : Nat)
    (ex : List String) (urls : List String)
    (hL : env.launchOk = true) (hN : env.gotoOk soSearchUrl = true)
    (hd : soDiscoverUrls? env.searchPage ex = some urls) :
    (scrape_stackoverflow_profiles env q l m ex).profiles
      = (urls.take m).filterMap (soAttempt env) := by
  unfold scrape_stackoverflow_profiles
  simp only [hL, if_true]
  simp only [hN, if_true]
  rw [hd]
  dsimp only
  rw [finishClose_profiles, profileLoop_profiles]

/-- Dev.to happy path: cap applied to successes. -/
theorem scrape_devto_profiles_eq (env : Env) (q : String) (m : Nat)
    (ex : List String) (urls : List String)
    (hL : env.launchOk = true) (hN : env.gotoOk devtoStartUrl = true)
    (hd : devtoDiscoverUrls? env.searchPage ex = some urls) :
    (scrape_devto_profiles env q m ex).profiles
      = (urls.filterMap (devtoAttempt env)).take m := by
  unfold scrape_devto_profiles
  simp only [hL, if_true]
  simp only [hN, if_true]
  rw [hd]
  dsimp only
  rw [finishClose_profiles, countedLoop_profiles]
  simp

/-- The dispatch routes every request to exactly one of the four platform
pipelines or to the unknown-platform diagnostic result. -/
theorem scrape_profiles_dispatch (env : Env) (platform q l : String) (m : Nat)
    (ex : List String) :
    scrape_profiles env platform q l m ex = scrape_github_profiles env q l m ex ∨
    scrape_profiles env platform q l m ex = scrape_behance_profiles env q l m ex ∨
    scrape_profiles env platform q l m ex = scrape_stackoverflow_profiles env q l m ex ∨
    scrape_profiles env platform q l m ex = scrape_devto_profiles env q m ex ∨
    scrape_profiles env platform q l m ex
      = { profiles := [], trace := [Event.logUnknown (pyLower platform)], raised := false } := by
  unfold scrape_profiles
  dsimp only
  split
  · exact Or.inl rfl
  · split
    · exact Or.inr (Or.inl rfl)
    · split
      · exact Or.inr (Or.inr (Or.inl rfl))
      · split
        · exact Or.inr (Or.inr (Or.inr (Or.inl rfl)))
        · exact Or.inr (Or.inr (Or.inr (Or.inr rfl)))

/-- C1 (counterexample): the claim says the top-level scrape never raises
even when the cleanup close in the fatal-error handler itself fails; but in
`envCloseFail` (launch succeeds, the search navigation fails, the handler
close fails) the handler close's exception escapes to the caller. -/
theorem c1_counterexample :
    (scrape_profiles envCloseFail "github" "go" "India" 3 []).raised = true := by decide

/-- C1 (amended): for every input the top-level scrape returns a list and
never raises, provided the `browser.close()` inside the fatal-error handler
does not itself fail; only a failing handler close can propagate an
exception to the caller. -/
theorem c1_total_unless_handler_close_fails (env : Env) (platform q l : String) (m : Nat)
    (ex : List String) (h : env.closeHandlerOk = true) :
    (scrape_profiles env platform q l m ex).raised = false := by
  rcases scrape_profiles_dispatch env platform q l m ex with hd | hd | hd | hd | hd <;> rw [hd]
  · exact scrape_github_raised env q l m ex h
  · exact scrape_behance_raised env q l m ex h
  · exact scrape_stackoverflow_raised env q l m ex h
  · exact scrape_devto_raised env q m ex h

/-- C1 (witness): concrete instance of the amended totality theorem. -/
theorem c1_witness : (scrape_profiles envAllOk "github" "go" "India" 3 []).raised = false :=
  c1_total_unless_handler_close_fails envAllOk "github" "go" "India" 3 [] rfl

/-- C2: for every environment and input, on every platform pipeline and on
the unknown-platform path, the returned profile list has length at most
`max_profiles`. -/
theorem c2_result_length_le_max (env : Env) (platform q l : String) (m : Nat)
    (ex : List String) :
    (scrape_profiles env platform q l m ex).profiles.length ≤ m := by
  rcases scrape_profiles_dispatch env platform q l m ex with hd | hd | hd | hd | hd <;> rw [hd]
  · exact scrape_github_len env q l m ex
  · exact scrape_behance_len env q l m ex
  · exact scrape_stackoverflow_len env q l m ex
  · exact scrape_devto_len env q m ex
  · simp

/-- C3: in every returned result list the emitted `profileUrl`s are
pairwise distinct and none of them belongs to `existing_urls`. -/
theorem c3_urls_distinct_and_fresh (env : Env) (platform q l : String) (m : Nat)
    (ex : List String) :
    ((scrape_profiles env platform q l m ex).profiles.map (fun pr => pr.profileUrl)).Nodup ∧
    ∀ u ∈ (scrape_profiles env platform q l m ex).profiles.map (fun pr => pr.profileUrl),
      u ∉ ex := by
  rcases scrape_profiles_dispatch env platform q l m ex with hd | hd | hd | hd | hd <;> rw [hd]
  · exact scrape_github_urls env q l m ex
  · exact scrape_behance_urls env q l m ex
  · exact scrape_stackoverflow_urls env q l m ex
  · exact scrape_devto_urls env q m ex
  · simp

/-- C3 (witness): a concretely emitted URL is indeed outside the request's
(empty) exclusion list. -/
theorem c3_witness : "https://github.com/alice" ∉ ([] : List String) :=
  (c3_urls_distinct_and_fresh envAllOk "github" "go" "India" 2 []).2
    "https://github.com/alice" (by decide)

/-- C4: every profile record appended to any result list has a nonempty
`fullName`; a record whose name is still empty after all strategies is
discarded. -/
theorem c4_nonempty_fullname (env : Env) (platform q l : String) (m : Nat)
    (ex : List String) :
    ∀ pr ∈ (scrape_profiles env platform q l m ex).profiles, pr.fullName ≠ "" := by
  rcases scrape_profiles_dispatch env platform q l m ex with hd | hd | hd | hd | hd <;> rw [hd]
  · exact scrape_github_names env q l m ex
  · exact scrape_behance_names env q l m ex
  · exact scrape_stackoverflow_names env q l m ex
  · exact scrape_devto_names env q m ex
  · simp

/-- C4 (witness): a concretely scraped profile has a nonempty name. -/
theorem c4_witness :
    ({ fullName := "Alice Smith", email := "", bio := "", location := "",
       profileUrl := "https://github.com/alice", skills := [], company := "",
       website := "", followers := 0, repos := 0, source := "GitHub" } : Profile).fullName
      ≠ "" :=
  c4_nonempty_fullname envAllOk "github" "go" "India" 2 [] _ (by decide)

/-- C5 (counterexample): the claim requires a single cleanup point, but the
code closes the browser at two distinct call sites — the normal-path close
inside the `try` body and a duplicated close inside the fatal `except`
handler — and different executions exercise different sites. -/
theorem c5_counterexample :
    Event.closeNormal ∈ (scrape_profiles envAllOk "github" "go" "India" 2 []).trace ∧
    Event.closeHandler ∉ (scrape_profiles envAllOk "github" "go" "India" 2 []).trace ∧
    Event.closeHandler ∈ (scrape_profiles envNavFail "github" "go" "India" 2 []).trace ∧
    Event.closeNormal ∉ (scrape_profiles envNavFail "github" "go" "India" 2 []).trace := by
  decide

/-- C5 (amended): whenever the browser was successfully launched, a
`browser.close()` is invoked before the scrape returns on every exit path —
but at one of two duplicated cleanup points (normal path or fatal handler),
not at a single one. -/
theorem c5_close_on_every_exit (env : Env) (platform q l : String) (m : Nat)
    (ex : List String)
    (h : Event.launch ∈ (scrape_profiles env platform q l m ex).trace) :
    Event.closeNormal ∈ (scrape_profiles env platform q l m ex).trace ∨
    Event.closeHandler ∈ (scrape_profiles env platform q l m ex).trace := by
  rcases scrape_profiles_dispatch env platform q l m ex with hd | hd | hd | hd | hd <;>
    rw [hd] at h ⊢
  · cases hL : env.launchOk with
    | true => exact scrape_github_close env q l m ex hL
    | false => rw [scrape_github_trace_nolaunch env q l m ex hL] at h; cases h
  · cases hL : env.launchOk with
    | true => exact scrape_behance_close env q l m ex hL
    | false => rw [scrape_behance_trace_nolaunch env q l m ex hL] at h; cases h
  · cases hL : env.launchOk with
    | true => exact scrape_stackoverflow_close env q l m ex hL
    | false => rw [scrape_stackoverflow_trace_nolaunch env q l m ex hL] at h; cases h
  · cases hL : env.launchOk with
    | true => exact scrape_devto_close env q m ex hL
    | false => rw [scrape_devto_trace_nolaunch env q m ex hL] at h; cases h
  · simp at h

/-- C5 (witness): concrete instance of the amended release theorem. -/
theorem c5_witness :
    Event.closeNormal ∈ (scrape_profiles envAllOk "behance" "go" "India" 2 []).trace ∨
    Event.closeHandler ∈ (scrape_profiles envAllOk "behance" "go" "India" 2 []).trace :=
  c5_close_on_every_exit envAllOk "behance" "go" "India" 2 [] (by decide)

/-- C6 (counterexample): the claim says the search URL navigated to depends
on the query on each platform; but the Stack Overflow and Dev.to scrapes
are completely unchanged — traces and all — when the query changes. -/
theorem c6_counterexample :
    scrape_profiles envAllOk "stackoverflow" "go" "India" 1 []
        = scrape_profiles envAllOk "stackoverflow" "java" "India" 1 [] ∧
    scrape_profiles envAllOk "devto" "go" "India" 1 []
        = scrape_profiles envAllOk "devto" "java" "India" 1 [] ∧
    ("go" : String) ≠ "java" := by decide

/-- C6 (amended): discovery begins by navigating to a platform-specific
start URL; for GitHub and Behance that URL is built from `query` and
`location` and differs for distinct queries, while Stack Overflow always
navigates to the fixed users-by-reputation listing and Dev.to to the fixed
homepage, independent of `query` and `location`. -/
theorem c6_search_urls_amended :
    (∀ l, githubSearchUrl "go" l ≠ githubSearchUrl "java" l) ∧
    (∀ l, behanceSearchUrl "go" l ≠ behanceSearchUrl "java" l) ∧
    (∀ env q q' l l' m ex, scrape_stackoverflow_profiles env q l m ex
        = scrape_stackoverflow_profiles env q' l' m ex) ∧
    (∀ env q q' m ex, scrape_devto_profiles env q m ex = scrape_devto_profiles env q' m ex) ∧
    (∀ env q l m ex, env.launchOk = true →
      (scrape_github_profiles env q l m ex).trace.take 2
          = [Event.launch, Event.goto (githubSearchUrl q l)] ∧
      (scrape_behance_profiles env q l m ex).trace.take 2
          = [Event.launch, Event.goto (behanceSearchUrl q l)] ∧
      (scrape_stackoverflow_profiles env q l m ex).trace.take 2
          = [Event.launch, Event.goto soSearchUrl] ∧
      (scrape_devto_profiles env q m ex).trace.take 2
          = [Event.launch, Event.goto devtoStartUrl]) := by
  refine ⟨githubSearchUrl_query_inj, behanceSearchUrl_query_inj,
    fun env q q' l l' m ex => rfl, fun env q q' m ex => rfl, ?_⟩
  intro env q l m ex h
  exact ⟨scrape_github_trace_take2 env q l m ex h,
    scrape_behance_trace_take2 env q l m ex h,
    scrape_stackoverflow_trace_take2 env q l m ex h,
    scrape_devto_trace_take2 env q m ex h⟩

/-- C6 (witness): concrete instance of the amended navigation theorem. -/
theorem c6_witness :
    (scrape_github_profiles envAllOk "go" "India" 2 []).trace.take 2
      = [Event.launch, Event.goto (githubSearchUrl "go" "India")] :=
  (c6_search_urls_amended.2.2.2.2 envAllOk "go" "India" 2 [] rfl).1

/-- C7 (counterexample): the claim says every platform extractor suppresses
duplicate skills; the Behance extractor does not — two identical chips are
both emitted. -/
theorem c7_counterexample :
    (extract_behance_profile pdBehanceDup "https://www.behance.net/ann").skills
      = ["UI", "UI"] := by decide

/-- C7 (amended): skills are collected by a multi-element, order-preserving
strategy where one exists: GitHub suppresses duplicates but caps nothing
(16 badges yield 16 skills), Stack Overflow suppresses duplicates and caps
at 15 elements, Behance caps at 10 elements but keeps duplicates, and
Dev.to collects no skills at all. -/
theorem c7_skills_amended :
    (∀ pd url, (extract_github_profile pd url).skills.Nodup ∧
      List.Sublist (extract_github_profile pd url).skills
        ((ghSkillEls pd).map (fun e => pyStrip e.text))) ∧
    (∀ pd url, (extract_stackoverflow_profile pd url).skills.Nodup ∧
      (extract_stackoverflow_profile pd url).skills.length ≤ 15 ∧
      List.Sublist (extract_stackoverflow_profile pd url).skills
        (((soSkillEls pd).take 15).map (fun e => pyStrip e.text))) ∧
    (∀ pd url, (extract_behance_profile pd url).skills.length ≤ 10 ∧
      List.Sublist (extract_behance_profile pd url).skills
        (((behSkillEls pd).take 10).map (fun e => pyStrip e.text))) ∧
    (∀ pd url, (extract_devto_profile pd url).skills = []) ∧
    (extract_github_profile pdManySkills "u").skills.length = 16 := by
  refine ⟨?_, ?_, ?_, fun pd url => rfl, by decide⟩
  · intro pd url
    rw [extract_github_skills]
    exact ⟨dedupCollect_nodup _, dedupCollect_sublist _⟩
  · intro pd url
    rw [extract_stackoverflow_skills]
    refine ⟨dedupCollect_nodup _, ?_, dedupCollect_sublist _⟩
    have h := List.Sublist.length_le (dedupCollect_sublist ((soSkillEls pd).take 15))
    rw [List.length_map] at h
    exact le_trans h (by rw [List.length_take]; exact min_le_left _ _)
  · intro pd url
    rw [extract_behance_skills]
    exact ⟨behanceSkillsCollect_len _, behanceSkillsCollect_sublist _⟩

/-- C8 (counterexample): the claim says every platform runs the regex
markup fallback when selector candidates number fewer than 3; Stack
Overflow never does — with zero selector candidates and markup full of
href-shaped user links the discovery still returns the empty list. -/
theorem c8_counterexample :
    soDiscoverUrls? pdEmpty [] = some [] ∧
    soDiscoverUrls? pdSORich [] = some [] ∧
    pdEmpty.content ≠ pdSORich.content := by decide

/-- C8 (amended): only GitHub discovery has the fewer-than-3 threshold that
triggers a regex scan of raw markup, filtered by its denylist and
path-shape heuristic; with 3 or more selector candidates the scan is not
run.  Behance discovery is an unconditional regex scan (its sole strategy),
while Stack Overflow and Dev.to use only selector strategies and never
consult the raw markup. -/
theorem c8_fallback_amended :
    (∀ pd ex, 3 ≤ (githubSelPhase pd ex).length →
      githubDiscoverUrls pd ex = githubSelPhase pd ex) ∧
    (∀ pd ex, (githubSelPhase pd ex).length < 3 →
      githubDiscoverUrls pd ex
        = (reFindallHref "href=\"" "/" pd.content).foldl (ghMatchStep ex)
            (githubSelPhase pd ex)) ∧
    (∀ pd ex, ∀ u ∈ githubDiscoverUrls pd ex,
      u ∈ githubSelPhase pd ex ∨ ghFallbackShape u) ∧
    (∀ pd pd' ex, pd.selAll = pd'.selAll → githubSelPhase pd ex = githubSelPhase pd' ex) ∧
    (∀ content ex, behanceDiscoverUrls content ex
        = (reFindallHref "href=\"" behancePre content).foldl (behMatchStep ex) []) ∧
    (∀ pd pd' ex, pd.selAll = pd'.selAll → soDiscoverUrls? pd ex = soDiscoverUrls? pd' ex) ∧
    (∀ pd pd' ex, pd.selAll = pd'.selAll →
      devtoDiscoverUrls? pd ex = devtoDiscoverUrls? pd' ex) :=
  ⟨githubDiscoverUrls_of_ge, githubDiscoverUrls_of_lt, githubDiscoverUrls_shape,
    githubSelPhase_content_free, fun content ex => rfl,
    soDiscoverUrls_content_free, devtoDiscoverUrls_content_free⟩

/-- C8 (witness): with 3 selector candidates the GitHub fallback is skipped
on a concrete page. -/
theorem c8_witness : githubDiscoverUrls pdGhSearch [] = githubSelPhase pdGhSearch [] :=
  c8_fallback_amended.1 pdGhSearch [] (by decide)

/-- C9: a platform string whose lower-cased form is none of the four known
platforms yields the empty list, logs the diagnostic, and does not raise;
the dispatch is total over all strings. -/
theorem c9_unknown_platform (env : Env) (platform q l : String) (m : Nat)
    (ex : List String)
    (h : pyLower platform ∉ ["github", "behance", "stackoverflow", "devto"]) :
    (scrape_profiles env platform q l m ex).profiles = [] ∧
    (scrape_profiles env platform q l m ex).raised = false ∧
    Event.logUnknown (pyLower platform) ∈ (scrape_profiles env platform q l m ex).trace := by
  have h1 : ¬ pyLower platform = "github" := fun hh => h (by rw [hh]; simp)
  have h2 : ¬ pyLower platform = "behance" := fun hh => h (by rw [hh]; simp)
  have h3 : ¬ pyLower platform = "stackoverflow" := fun hh => h (by rw [hh]; simp)
  have h4 : ¬ pyLower platform = "devto" := fun hh => h (by rw [hh]; simp)
  unfold scrape_profiles
  dsimp only
  rw [if_neg h1, if_neg h2, if_neg h3, if_neg h4]
  exact ⟨rfl, rfl, by simp⟩

/-- C9 (witness): the unrecognized platform "linkedin" returns empty. -/
theorem c9_witness : (scrape_profiles envAllOk "linkedin" "go" "India" 5 []).profiles = [] :=
  (c9_unknown_platform envAllOk "linkedin" "go" "India" 5 [] (by decide)).1

/-- C10: the cap accounting differs per platform.  GitHub and Stack
Overflow apply `take max_profiles` to the candidate URLs before attempting
them, so failed or discarded candidates consume attempts; Behance and
Dev.to take the first `max_profiles` of the successes, so after a failure
later candidates are still attempted. -/
theorem c10_cap_accounting (env : Env) (q l : String) (m : Nat) (ex : List String)
    (hL : env.launchOk = true) :
    (env.gotoOk (githubSearchUrl q l) = true →
      (scrape_github_profiles env q l m ex).profiles
        = ((githubDiscoverUrls env.searchPage ex).take m).filterMap (ghAttempt env)) ∧
    (env.gotoOk (behanceSearchUrl q l) = true →
      (scrape_behance_profiles env q l m ex).profiles
        = ((behanceDiscoverUrls env.searchPage.content ex).filterMap (behAttempt env)).take m) ∧
    (∀ urls, env.gotoOk soSearchUrl = true →
      soDiscoverUrls? env.searchPage ex = some urls →
      (scrape_stackoverflow_profiles env q l m ex).profiles
        = (urls.take m).filterMap (soAttempt env)) ∧
    (∀ urls, env.gotoOk devtoStartUrl = true →
      devtoDiscoverUrls? env.searchPage ex = some urls →
      (scrape_devto_profiles env q m ex).profiles
        = (urls.filterMap (devtoAttempt env)).take m) :=
  ⟨fun hN => scrape_github_profiles_eq env q l m ex hL hN,
   fun hN => scrape_behance_profiles_eq env q l m ex hL hN,
   fun urls hN hd => scrape_stackoverflow_profiles_eq env q l m ex urls hL hN hd,
   fun urls hN hd => scrape_devto_profiles_eq env q m ex urls hL hN hd⟩

/-- C10 (witness): concrete GitHub instance of the cap-accounting
characterization. -/
theorem c10_witness :
    (scrape_github_profiles envAllOk "go" "India" 2 []).profiles
      = ((githubDiscoverUrls envAllOk.searchPage []).take 2).filterMap (ghAttempt envAllOk) :=
  (c10_cap_accounting envAllOk "go" "India" 2 [] rfl).1 rfl
